import Mathlib

/-!
# Verification of the voice-driven name cycler

Shallow embedding of the two Python sources of the repository,
`bibb.py` (class `VoiceCycler` with its helpers) and `voice.py`
(the simple loop variant), together with theorems settling the
specification's claims about them.

Conventions of the embedding:
* machine integers are `Nat` (the counters in the sources never go
  negative and Python integers are unbounded, so no modular wrap is
  needed);
* the external transcription backend is modelled by the outcome it
  returns on each attempt (`RecResult`), one list element per attempt;
* observable side effects (speech-output requests, CSV rows appended,
  backoff sleeps, warning/error log lines) are returned explicitly as
  data;
* `time.sleep(1)` is counted as one unit in the `sleeps` field: every
  backoff in the source is this same fixed one-second sleep.
-/

namespace Bibb

/-- Embeds `Config` of `bibb.py`: the trigger phrase (line 36). -/
def Config.PHRASE : String := "who is he"

/-- Embeds `Config.REPLIES` of `bibb.py` (line 38). -/
def Config.REPLIES : List String := ["Vaibhav", "Manas", "Dev"]

/-- Embeds `Config.MAX_RETRY` of `bibb.py` (line 51). -/
def Config.MAX_RETRY : Nat := 3

/-- Embeds `Config.QUEUE_MAXSIZE` of `bibb.py` (line 53). -/
def Config.QUEUE_MAXSIZE : Nat := 32

/-- `leadsWith needle hay` holds when `needle` occurs at the very start
of `hay` (character-list version of string-prefix testing, used to build
Python's substring operator below). -/
def leadsWith : List Char → List Char → Bool
  | [], _ => true
  | _ :: _, [] => false
  | a :: as, b :: bs => a == b && leadsWith as bs

/-- `listContains needle hay` is Python's `needle in hay` on character
lists: `needle` occurs contiguously somewhere in `hay`.  The empty
needle is contained in every list, as in Python. -/
def listContains (needle : List Char) : List Char → Bool
  | [] => needle.isEmpty
  | c :: rest => leadsWith needle (c :: rest) || listContains needle rest

/-- Python's substring test `needle in hay` on strings, as used by the
phrase check `self.config.PHRASE in recognized_text` (`bibb.py` line 256)
and by `"who is he" in text` (`voice.py` line 34). -/
def strContainsSub (hay needle : String) : Bool :=
  listContains needle.toList hay.toList

/-- Python's `str.lower()` as called on the recognized text
(`bibb.py` line 243, `voice.py` line 16), modelled characterwise at the
ASCII level (all strings in the claims are ASCII). -/
def strLower (s : String) : String :=
  String.mk (s.data.map Char.toLower)

/-- Python's whitespace trim (`str.strip()`): drop whitespace from both
ends.  The source never calls it; it is needed only to compare the
code's normalization with the spec's wording. -/
def strTrim (s : String) : String :=
  String.mk
    (((s.data.dropWhile Char.isWhitespace).reverse.dropWhile Char.isWhitespace).reverse)

/-- Embeds `VoiceCycler._get_next_reply` (`bibb.py` lines 291-299):
`idx = self.count % len(self.config.REPLIES)`,
`reply = self.config.REPLIES[idx]`, `self.count += 1`.  The pair is
(returned reply, counter value after the call). -/
def getNextReply (replies : List String) (count : Nat) : String × Nat :=
  let idx := count % replies.length
  let reply := replies.getD idx ""
  (reply, count + 1)

/-- Counter value after `n` sequential calls of `getNextReply` starting
from the initial state `self.count = 0` set in `__init__` (line 177). -/
def runCycler (replies : List String) : Nat → Nat
  | 0 => 0
  | n + 1 => (getNextReply replies (runCycler replies n)).2

/-- The reply handed out by the `N`-th (0-indexed) call of
`getNextReply` in a fresh process. -/
def nthReply (replies : List String) (N : Nat) : String :=
  (getNextReply replies (runCycler replies N)).1

/-- Outcome of one transcription attempt, i.e. of one call of
`self.recognizer.recognize_google(audio)` in `bibb.py` line 242:
either it returns a text, or it raises `sr.UnknownValueError`
(no interpretable speech), or it raises `sr.RequestError`
(transient backend failure). -/
inductive RecResult where
  | text (s : String)
  | unrecognized
  | transientErr
deriving DecidableEq

/-- Embeds the retry loop of `VoiceCycler._process_audio`
(`bibb.py` lines 239-253).  The first argument lists the backend's
outcome for each successive attempt; the second is the number of
attempts still allowed (initially `Config.MAX_RETRY`; it is `1` exactly
when `attempt == self.config.MAX_RETRY` in the source).  The result is
(`some` recognized text lowercased, when the loop reaches the phrase
check; `none` when the function returned inside the loop) paired with
the number of `time.sleep(1)` backoffs performed.  With zero attempts
allowed the loop body never runs and `recognized_text` keeps its
initial value `""` (line 239). -/
def attemptLoop : List RecResult → Nat → Option String × Nat
  | _, 0 => (some "", 0)
  | [], _ + 1 => (none, 0)
  | RecResult.text s :: _, _ + 1 => (some (strLower s), 0)
  | RecResult.unrecognized :: _, _ + 1 => (none, 0)
  | RecResult.transientErr :: rest, n + 1 =>
    if n = 0 then (none, 0)
    else
      let r := attemptLoop rest n
      (r.1, r.2 + 1)

/-- Observable effects of processing one audio snippet: the speech
outputs requested through `self.tts.speak`, the CSV rows handed to
`self.csv_logger.log_interaction` (recognized text, reply), and the
number of one-second backoff sleeps. -/
structure Effects where
  replies : List String
  logRecords : List (String × String)
  sleeps : Nat
deriving DecidableEq

/-- Embeds `VoiceCycler._process_audio` (`bibb.py` lines 232-272) as a
whole: run the retry loop, then, when the trigger phrase is a substring
of the recognized text, take the next reply from the cycler, speak it
and log one CSV row.  `count` is the shared cycle counter `self.count`
before the snippet is processed; the second component is its value
afterwards. -/
def processAudio (outcomes : List RecResult) (count : Nat) : Effects × Nat :=
  let r := attemptLoop outcomes Config.MAX_RETRY
  match r.1 with
  | none => (⟨[], [], r.2⟩, count)
  | some text =>
    if strContainsSub text Config.PHRASE then
      let nr := getNextReply Config.REPLIES count
      (⟨[nr.1], [(text, nr.1)], r.2⟩, nr.2)
    else
      (⟨[], [], r.2⟩, count)

/-- Modelled from the spec (section 4.2's decision table, row
`Success`): normalization as the spec words it, lowercase the text and
then trim surrounding whitespace.  Kept separate from the code's own
normalization (which is the bare `strLower` inside
`attemptLoop`) so the two can be compared. -/
def specNormalize (s : String) : String := strTrim (strLower s)

/-- Embeds `queue.Queue.put_nowait` for the audio queue created with
`maxsize=config.QUEUE_MAXSIZE` (`bibb.py` line 179): when the queue is
bounded (`0 < maxsize`) and at capacity the insert fails and the queue
is unchanged, otherwise the item is appended at the tail.  The `Bool`
is `false` exactly when Python raises `queue.Full`. -/
def putNoWait {α : Type} (maxsize : Nat) (q : List α) (x : α) : List α × Bool :=
  if 0 < maxsize ∧ maxsize ≤ q.length then (q, false) else (q ++ [x], true)

/-- Embeds the background-listener `callback` of
`VoiceCycler.listen_in_background` (`bibb.py` lines 214-223): try a
non-blocking enqueue; on `queue.Full` drop the snippet and emit one
warning-level log line.  The `Nat` counts warning log lines. -/
def audioCallback {α : Type} (maxsize : Nat) (q : List α) (x : α) : List α × Nat :=
  let r := putNoWait maxsize q x
  if r.2 then (r.1, 0) else (r.1, 1)

/-- Embeds `CSVLogger.log_interaction` (`bibb.py` lines 105-119).
`rows` is the current content of the CSV sink; `ok` says whether the
underlying file append succeeds on this call (the sink is an external
collaborator).  On success the one row is appended; on failure the
exception is caught, one error-level log line is emitted (counted by
the `Nat`), the sink is left unchanged, and nothing is retried,
buffered or re-raised — the function is total.  The timestamp column is
produced by the external clock and is not modelled. -/
def logInteraction (rows : List (String × String)) (ok : Bool)
    (recognizedText reply : String) : List (String × String) × Nat :=
  if ok then (rows ++ [(recognizedText, reply)], 0) else (rows, 1)

/-- Shared state for the interleaving model of two concurrent calls of
`_get_next_reply` (threads `A` and `B`): the shared `self.count`, and
the index each thread has computed so far (`none` before its read).
The source protects `self.count` with no lock, so the read of
`self.count` on line 295 and the update `self.count += 1` on line 298
are separate steps that another worker thread can interleave. -/
structure CyclerSt where
  count : Nat
  idxA : Option Nat
  idxB : Option Nat
deriving DecidableEq

/-- One atomic step of thread `A` or `B` inside `_get_next_reply`:
`read` is `idx = self.count % len(self.config.REPLIES)` (line 295),
`inc` is `self.count += 1` (line 298; modelled as a single atomic
update, which is generous to the source — CPython splits even this into
a load and a store). -/
inductive CyclerEv where
  | readA
  | incA
  | readB
  | incB
deriving DecidableEq

/-- Effect of one step on the shared state. -/
def cyclerStep (replies : List String) (s : CyclerSt) : CyclerEv → CyclerSt
  | CyclerEv.readA => { s with idxA := some (s.count % replies.length) }
  | CyclerEv.incA => { s with count := s.count + 1 }
  | CyclerEv.readB => { s with idxB := some (s.count % replies.length) }
  | CyclerEv.incB => { s with count := s.count + 1 }

/-- Run a schedule (a sequence of interleaved steps) from a state. -/
def runSched (replies : List String) (s : CyclerSt) : List CyclerEv → CyclerSt
  | [] => s
  | e :: es => runSched replies (cyclerStep replies s e) es

/-- The reply a thread returns, from the index it read:
`reply = self.config.REPLIES[idx]` (line 296). -/
def replyFromIdx (replies : List String) : Option Nat → Option String
  | none => none
  | some i => some (replies.getD i "")

/-- A schedule is a valid interleaving of the two calls when each
thread's own two steps occur once each and in program order (its read
before its increment). -/
def validSched (sched : List CyclerEv) : Bool :=
  sched.filter (fun e => e == CyclerEv.readA || e == CyclerEv.incA)
      == [CyclerEv.readA, CyclerEv.incA]
    && sched.filter (fun e => e == CyclerEv.readB || e == CyclerEv.incB)
      == [CyclerEv.readB, CyclerEv.incB]

/-- One iteration of the dispatch loop of `VoiceCycler.process_queue`
(`bibb.py` lines 279-287), abstracted over time: `start` is the instant
the loop re-checks `self.running`, `dur` is how long the
`self.audio_queue.get(timeout=1.0)` call blocks (bounded by the
timeout, which is a hypothesis of the theorem), and `item` says whether
the dequeue returned a snippet (`true`) or raised `queue.Empty`
(`false`). -/
structure Iteration where
  start : Nat
  dur : Nat
  item : Bool

/-- The times at which the dispatch loop spawns a worker thread, given
that the running flag was set to `false` at instant `tStop` (by the
signal handler of lines 191-193): an iteration whose flag check happens
at or after `tStop` sees `self.running == False` and exits the loop; an
earlier iteration proceeds, blocks on the dequeue for `dur`, and spawns
a worker at `start + dur` when the dequeue yielded a snippet. -/
def spawnTimes (tStop : Nat) : List Iteration → List Nat
  | [] => []
  | it :: rest =>
    if tStop ≤ it.start then []
    else (if it.item then [it.start + it.dur] else []) ++ spawnTimes tStop rest

/-- Controller state visible to the signal handler: the `self.running`
flag and the worker threads spawned so far (named by opaque ids). -/
structure PipelineSt where
  running : Bool
  workers : List Nat
deriving DecidableEq

/-- Embeds `_handler` of `VoiceCycler._install_signal_handlers`
(`bibb.py` lines 191-193): the termination signal only clears the
running flag; it touches no worker thread. -/
def signalHandler (s : PipelineSt) : PipelineSt :=
  { s with running := false }

end Bibb

namespace Voice

/-- Embeds `REPLIES` of `voice.py` (line 4). -/
def REPLIES : List String := ["Vaibhav", "Manas", "Dev"]

/-- Embeds the reply selection of `voice.py`'s `main` (line 35):
`name = REPLIES[count % len(REPLIES)]`. -/
def replySel (count : Nat) : String := REPLIES.getD (count % REPLIES.length) ""

/-- Embeds one iteration of `voice.py`'s `main` loop (lines 32-37):
when the trigger phrase is a substring of the text, print the selected
name and increment `count`; otherwise keep listening. -/
def loopStep (count : Nat) (text : String) : List String × Nat :=
  if Bibb.strContainsSub text "who is he" then ([replySel count], count + 1)
  else ([], count)

end Voice

namespace Bibb

theorem runCycler_eq (replies : List String) : ∀ n, runCycler replies n = n := by
  intro n
  induction n with
  | zero => rfl
  | succ k ih => simp [runCycler, getNextReply, ih]

/-- C1: the `N`-th trigger detection (0-indexed, across the process
lifetime) is assigned `replies[N mod len(replies)]`; with the default
reply list the first three calls return `Vaibhav`, `Manas`, `Dev` and
the fourth wraps around to `Vaibhav`. -/
theorem nthReply_mod_cycle (N : Nat) :
    nthReply Config.REPLIES N
      = Config.REPLIES.getD (N % Config.REPLIES.length) ""
    ∧ nthReply Config.REPLIES 0 = "Vaibhav"
    ∧ nthReply Config.REPLIES 1 = "Manas"
    ∧ nthReply Config.REPLIES 2 = "Dev"
    ∧ nthReply Config.REPLIES 3 = "Vaibhav" := by
  refine ⟨?_, by decide, by decide, by decide, by decide⟩
  simp [nthReply, getNextReply, runCycler_eq]

/-- C2, counterexample: transcription of `" WHO IS HE "` succeeds, and
the text the phrase check (and the CSV row) sees is `" who is he "` —
lowercased but with its surrounding whitespace intact, so the claimed
trim never happens: the checked text differs from its own trim and from
the spec's lowercase-then-trim normalization. -/
theorem processAudio_checkedText_not_trimmed :
    attemptLoop [RecResult.text " WHO IS HE "] Config.MAX_RETRY
      = (some " who is he ", 0)
    ∧ (processAudio [RecResult.text " WHO IS HE "] 0).1.logRecords
      = [(" who is he ", "Vaibhav")]
    ∧ " who is he " ≠ strTrim " who is he "
    ∧ specNormalize " WHO IS HE " = "who is he"
    ∧ " who is he " ≠ specNormalize " WHO IS HE " := by
  decide

/-- C2, amended: for every successfully transcribed snippet the text is
normalized by lowercasing only — no whitespace trimming — before the
trigger-phrase substring check is performed on it. -/
theorem attemptLoop_lowercase_no_trim (raw : String) (rest : List RecResult)
    (n count : Nat) :
    attemptLoop (RecResult.text raw :: rest) (n + 1) = (some (strLower raw), 0)
    ∧ (processAudio (RecResult.text raw :: rest) count).1.replies
      = (if strContainsSub (strLower raw) Config.PHRASE
         then [(getNextReply Config.REPLIES count).1] else []) := by
  refine ⟨rfl, ?_⟩
  by_cases h : strContainsSub (strLower raw) Config.PHRASE
  · simp [processAudio, attemptLoop, Config.MAX_RETRY, h]
  · simp [processAudio, attemptLoop, Config.MAX_RETRY, h]

/-- C4: with retry bound 3, a snippet whose attempts yield transient
errors on attempts 1 and 2 and the trigger text on attempt 3 produces
exactly one reply and exactly one log record (after two backoff
sleeps); a transient error sleeps once and retries unless it happened
on the last allowed attempt, in which case the snippet aborts with no
reply and no log record. -/
theorem retry_boundary_one_reply (count : Nat) :
    processAudio
        [RecResult.transientErr, RecResult.transientErr, RecResult.text "who is he"]
        count
      = (⟨[(getNextReply Config.REPLIES count).1],
          [("who is he", (getNextReply Config.REPLIES count).1)], 2⟩,
         (getNextReply Config.REPLIES count).2)
    ∧ (∀ rest : List RecResult,
        attemptLoop (RecResult.transientErr :: rest) 1 = (none, 0))
    ∧ (∀ (rest : List RecResult) (n : Nat),
        attemptLoop (RecResult.transientErr :: rest) (n + 2)
          = ((attemptLoop rest (n + 1)).1, (attemptLoop rest (n + 1)).2 + 1))
    ∧ processAudio
        [RecResult.transientErr, RecResult.transientErr, RecResult.transientErr]
        count
      = (⟨[], [], 2⟩, count) := by
  refine ⟨rfl, fun rest => rfl, fun rest n => rfl, rfl⟩

/-- C5: a snippet whose transcription comes back `Unrecognized` is
aborted at once — no further attempt is consulted whatever the retry
budget — and processing it yields zero log records, zero speech-output
calls, zero sleeps, and leaves the reply counter untouched. -/
theorem unrecognized_aborts_immediately (rest : List RecResult) (n count : Nat) :
    attemptLoop (RecResult.unrecognized :: rest) (n + 1) = (none, 0)
    ∧ processAudio (RecResult.unrecognized :: rest) count = (⟨[], [], 0⟩, count) := by
  exact ⟨rfl, rfl⟩

/-- C9: trigger detection is substring matching, not exact matching:
with the configured phrase `"who is he"`, the text
`"i wonder who is he today"` is not equal to the phrase yet detection
fires and a reply is produced (and logged). -/
theorem substring_detection_fires :
    strContainsSub "i wonder who is he today" Config.PHRASE = true
    ∧ "i wonder who is he today" ≠ Config.PHRASE
    ∧ (processAudio [RecResult.text "i wonder who is he today"] 0).1.replies
      = ["Vaibhav"]
    ∧ (processAudio [RecResult.text "i wonder who is he today"] 0).1.logRecords
      = [("i wonder who is he today", "Vaibhav")] := by
  decide

/-- C3, counterexample: `_get_next_reply` guards `self.count` with no
lock, so the index read (line 295) and the increment (line 298) of two
concurrent calls can interleave.  The valid interleaving read-A, read-B,
inc-A, inc-B from counter 0 hands both calls the counter value `0`: the
same counter value is assigned twice, both calls return `"Vaibhav"`, and
the pair of return values matches neither serialization
(`"Vaibhav","Manas"` or `"Manas","Vaibhav"`) — the claimed
linearizability fails because the update is not one atomic
read-increment-return. -/
theorem counter_race_duplicates :
    validSched [CyclerEv.readA, CyclerEv.readB, CyclerEv.incA, CyclerEv.incB] = true
    ∧ (runSched Config.REPLIES ⟨0, none, none⟩
        [CyclerEv.readA, CyclerEv.readB, CyclerEv.incA, CyclerEv.incB]).idxA = some 0
    ∧ (runSched Config.REPLIES ⟨0, none, none⟩
        [CyclerEv.readA, CyclerEv.readB, CyclerEv.incA, CyclerEv.incB]).idxB = some 0
    ∧ replyFromIdx Config.REPLIES
        (runSched Config.REPLIES ⟨0, none, none⟩
          [CyclerEv.readA, CyclerEv.readB, CyclerEv.incA, CyclerEv.incB]).idxA
      = some "Vaibhav"
    ∧ replyFromIdx Config.REPLIES
        (runSched Config.REPLIES ⟨0, none, none⟩
          [CyclerEv.readA, CyclerEv.readB, CyclerEv.incA, CyclerEv.incB]).idxB
      = some "Vaibhav"
    ∧ ((getNextReply Config.REPLIES 0).1, (getNextReply Config.REPLIES 1).1)
      ≠ ("Vaibhav", "Vaibhav")
    ∧ ((getNextReply Config.REPLIES 1).1, (getNextReply Config.REPLIES 0).1)
      ≠ ("Vaibhav", "Vaibhav") := by
  decide

/-- C3, amended: when the two calls do not interleave (each call's read
and increment run consecutively, i.e. the calls are serialized), the
pair of return values is exactly one traversal step of the reply
sequence from any starting counter `c`: the first call returns the
value of counter `c`, the second the value of counter `c + 1`, the two
counter values (hence indices) are distinct, and the counter advances
by exactly two — no duplicate, no skip.  Atomicity of the counter
update is not a property of the code; it holds only for such
non-interleaved executions. -/
theorem counter_serialized_traversal (c : Nat) :
    validSched [CyclerEv.readA, CyclerEv.incA, CyclerEv.readB, CyclerEv.incB] = true
    ∧ (runSched Config.REPLIES ⟨c, none, none⟩
        [CyclerEv.readA, CyclerEv.incA, CyclerEv.readB, CyclerEv.incB]).idxA
      = some (c % Config.REPLIES.length)
    ∧ (runSched Config.REPLIES ⟨c, none, none⟩
        [CyclerEv.readA, CyclerEv.incA, CyclerEv.readB, CyclerEv.incB]).idxB
      = some ((c + 1) % Config.REPLIES.length)
    ∧ replyFromIdx Config.REPLIES
        (runSched Config.REPLIES ⟨c, none, none⟩
          [CyclerEv.readA, CyclerEv.incA, CyclerEv.readB, CyclerEv.incB]).idxA
      = some (getNextReply Config.REPLIES c).1
    ∧ replyFromIdx Config.REPLIES
        (runSched Config.REPLIES ⟨c, none, none⟩
          [CyclerEv.readA, CyclerEv.incA, CyclerEv.readB, CyclerEv.incB]).idxB
      = some (getNextReply Config.REPLIES (c + 1)).1
    ∧ (runSched Config.REPLIES ⟨c, none, none⟩
        [CyclerEv.readA, CyclerEv.incA, CyclerEv.readB, CyclerEv.incB]).count = c + 2
    ∧ (runSched Config.REPLIES ⟨c, none, none⟩
        [CyclerEv.readA, CyclerEv.incA, CyclerEv.readB, CyclerEv.incB]).idxA
      ≠ (runSched Config.REPLIES ⟨c, none, none⟩
          [CyclerEv.readA, CyclerEv.incA, CyclerEv.readB, CyclerEv.incB]).idxB := by
  refine ⟨by decide, rfl, rfl, rfl, rfl, rfl, ?_⟩
  simp only [runSched, cyclerStep, Ne, Option.some.injEq]
  show ¬ c % Config.REPLIES.length = (c + 1) % Config.REPLIES.length
  simp only [Config.REPLIES, List.length_cons, List.length_nil]
  omega

/-- C6: enqueueing on a queue at its fixed capacity (32) fails without
blocking, drops the snippet (the callback makes no second attempt and
no reordering: the queue it leaves behind is exactly the old one, no
element evicted or overwritten), and logs exactly one warning line. -/
theorem full_queue_drops_snippet {α : Type} (q : List α) (x : α)
    (h : q.length = Config.QUEUE_MAXSIZE) :
    putNoWait Config.QUEUE_MAXSIZE q x = (q, false)
    ∧ audioCallback Config.QUEUE_MAXSIZE q x = (q, 1) := by
  have hcap : 0 < Config.QUEUE_MAXSIZE ∧ Config.QUEUE_MAXSIZE ≤ q.length := by
    rw [h]; exact ⟨by decide, le_refl _⟩
  constructor
  · simp [putNoWait, hcap]
  · simp [audioCallback, putNoWait, hcap]

/-- Witness for C6 at a concrete full queue of 32 elements. -/
theorem full_queue_drops_snippet_witness :
    putNoWait Config.QUEUE_MAXSIZE (List.replicate 32 (0 : Nat)) 7
      = (List.replicate 32 (0 : Nat), false)
    ∧ audioCallback Config.QUEUE_MAXSIZE (List.replicate 32 (0 : Nat)) 7
      = (List.replicate 32 (0 : Nat), 1) :=
  full_queue_drops_snippet (List.replicate 32 (0 : Nat)) 7 (by decide)

theorem spawnTimes_lt (tStop timeout : Nat) (iters : List Iteration)
    (hdur : ∀ it ∈ iters, it.dur ≤ timeout) :
    ∀ t ∈ spawnTimes tStop iters, t < tStop + timeout := by
  revert hdur
  induction iters with
  | nil => intro _ t ht; simp [spawnTimes] at ht
  | cons it rest ih =>
    intro hdur t ht
    have hd : it.dur ≤ timeout := hdur it (by simp)
    have hrest : ∀ i ∈ rest, i.dur ≤ timeout := fun i hi => hdur i (by simp [hi])
    by_cases hs : tStop ≤ it.start
    · simp [spawnTimes, hs] at ht
    · have hlt : it.start < tStop := by omega
      cases hitem : it.item with
      | true =>
        simp [spawnTimes, hs, hitem] at ht
        rcases ht with h1 | h2
        · omega
        · exact ih hrest t h2
      | false =>
        simp [spawnTimes, hs, hitem] at ht
        exact ih hrest t ht

/-- C7: once the running flag is cleared at instant `tStop`, every
worker spawn of the dispatch loop happens strictly before
`tStop + timeout` — an iteration already inside its dequeue finishes
that wait (bounded by the timeout) and any later iteration re-checks
the flag and exits, so spawning stops within one dequeue-timeout
interval; and the termination signal itself only clears the flag,
leaving every already spawned worker untouched to run to completion. -/
theorem shutdown_spawn_bound (tStop timeout : Nat) (iters : List Iteration)
    (hdur : ∀ it ∈ iters, it.dur ≤ timeout) :
    (∀ t ∈ spawnTimes tStop iters, t < tStop + timeout)
    ∧ ∀ s : PipelineSt,
        (signalHandler s).workers = s.workers ∧ (signalHandler s).running = false :=
  ⟨spawnTimes_lt tStop timeout iters hdur, fun _ => ⟨rfl, rfl⟩⟩

/-- Witness for C7: a concrete run with the flag cleared at instant 5
and dequeue timeout 2; the loop's spawn at instant 2 is before `5 + 2`,
and the handler leaves the two spawned workers in place. -/
theorem shutdown_spawn_bound_witness :
    2 < 5 + 2 ∧ (signalHandler ⟨true, [1, 2]⟩).workers = [1, 2] :=
  ⟨(shutdown_spawn_bound 5 2
      [⟨0, 2, true⟩, ⟨2, 1, false⟩, ⟨3, 2, true⟩, ⟨5, 1, true⟩]
      (by decide)).1 2 (by decide),
   ((shutdown_spawn_bound 5 2
      [⟨0, 2, true⟩, ⟨2, 1, false⟩, ⟨3, 2, true⟩, ⟨5, 1, true⟩]
      (by decide)).2 ⟨true, [1, 2]⟩).1⟩

/-- C8: a failing append is caught inside `log_interaction` — the sink
is left unchanged, exactly one error line is logged, nothing is
retried, buffered or re-raised (the embedding is a total function whose
only attempt is this single conditional append) — and a subsequent
interaction's record is still appended successfully. -/
theorem log_sink_failure_isolated (rows : List (String × String))
    (t1 r1 t2 r2 : String) :
    logInteraction rows false t1 r1 = (rows, 1)
    ∧ logInteraction (logInteraction rows false t1 r1).1 true t2 r2
      = (rows ++ [(t2, r2)], 0) := by
  exact ⟨rfl, rfl⟩

/-- C10: `voice.py`'s main loop and `bibb.py`'s `_get_next_reply`
implement the same trigger-count-to-reply mapping: the reply lists are
identical, and at every counter value the name `voice.py` selects (and
the counter it leaves behind after incrementing) equals the reply and
counter produced by `_get_next_reply`. -/
theorem voice_refines_bibb_cycler (count : Nat) :
    Voice.REPLIES = Config.REPLIES
    ∧ Voice.replySel count = (getNextReply Config.REPLIES count).1
    ∧ ∀ text : String,
        Voice.loopStep count text
          = (if strContainsSub text Config.PHRASE
             then ([(getNextReply Config.REPLIES count).1],
                   (getNextReply Config.REPLIES count).2)
             else ([], count)) := by
  exact ⟨rfl, rfl, fun _ => rfl⟩

end Bibb
